import Mathlib

/-
Verification development for the geo-convert repository
(src/streamlit_app.py).

The Python module is a single-pass pipeline over pandas DataFrames.  We
embed the pieces the specification talks about:

  * `detect_geometry_columns` (lines 15-59): a heuristic scan over the
    columns of a DataFrame that proposes geometry candidates.
  * `convert_csv_to_geodataframe` (lines 61-122): builds a GeoDataFrame
    from a DataFrame in one of the modes points / wkt / geojson.
  * the output-format menu computation (lines 353-360).

Cell values are modelled by `Value` (string, rational number, or null;
pandas NaN is `null`).  A DataFrame is a list of column names plus a
list of rows.  Calls into third-party geometry libraries (shapely
`wkt.loads`, `json.loads`, pyproj CRS resolution) are modelled as
function parameters (oracles): `wkt.loads` either succeeds or raises,
which we represent with `Except`; CRS resolution is a boolean validity
oracle.  Streamlit UI side effects (`st.warning`, `st.error`) and the
moment geometries are materialised are recorded in an `Event` trace so
that ordering claims can be stated.
-/

set_option autoImplicit false

namespace GeoConvert

/-- A scalar cell of a pandas DataFrame: a string, a number, or a null
(NaN / None). -/
inductive Value where
  | str : String → Value
  | num : Rat → Value
  | null : Value
deriving DecidableEq

/-- pandas `notna`: everything except null. -/
def Value.notna : Value → Bool
  | .null => false
  | _ => true

/-- Python `isinstance(v, str)`. -/
def Value.isStr : Value → Bool
  | .str _ => true
  | _ => false

/-- Whether the cell holds a number. -/
def Value.isNum : Value → Bool
  | .num _ => true
  | _ => false

/-- The numeric payload of a cell (0 for non-numbers; only used under an
`isNum` hypothesis). -/
def Value.asRat : Value → Rat
  | .num q => q
  | _ => 0

/-- Python str.lower, over the character list of the string (kept
kernel-reducible so that concrete runs evaluate). -/
def strLower (s : String) : String := ⟨s.data.map Char.toLower⟩

/-- Python str.startswith. -/
def strStartsWith (s p : String) : Bool := p.data.isPrefixOf s.data

/-- Python membership test of a single character in a string. -/
def strHasChar (s : String) (c : Char) : Bool := s.data.contains c

/-- A pandas DataFrame: ordered column names and rows of cells. -/
structure DataFrame where
  cols : List String
  rows : List (List Value)
deriving DecidableEq

/-- Cell of a row at a column index (missing cells read as null). -/
def getCell (r : List Value) (i : Nat) : Value :=
  r.getD i Value.null

/-- Index of a column label, as used by `df[col]` (first match). -/
def DataFrame.colIdx? (df : DataFrame) (c : String) : Option Nat :=
  df.cols.indexOf? c

/-- The values of column `c`, in row order (`df[col]`). -/
def DataFrame.colVals (df : DataFrame) (c : String) : List Value :=
  match df.colIdx? c with
  | some i => df.rows.map (fun r => getCell r i)
  | none => []

/-- The dtype test `sample.dtype == object` of line 31: a pandas column
has object dtype exactly when it holds strings. -/
def dtypeIsObject (vs : List Value) : Bool :=
  vs.any Value.isStr

/-- The geometry-ish column-name vocabulary of line 21. -/
def geomColNames : List String :=
  ["geometry", "geom", "shape", "the_geom", "wkt", "geojson",
   "polygon", "polygon_corrected", "polygon_original"]

/-- The startswith alternatives of lines 36-40 (note: no MULTIPOINT, and
the comparison is case sensitive). -/
def wktStarts : List String :=
  ["POINT", "POLYGON", "MULTIPOLYGON", "LINESTRING", "MULTILINESTRING"]

/-- Left curly brace character. -/
def lbrace : Char := Char.ofNat 123

/-- Right curly brace character. -/
def rbrace : Char := Char.ofNat 125

/-- Lines 48-57: the GeoJSON content check on the first sampled value.
`j` models `json.loads`, returning the top-level keys of the parsed
object or raising (`.error`); the try/except of the source catches the
raise and leaves the candidate list unchanged. -/
def geoJsonCheck (j : String → Except String (List String))
    (acc : List String) (c : String) : Value → List String
  | .str s =>
    if strHasChar s lbrace && strHasChar s rbrace then
      match j s with
      | .ok keys =>
          if keys.contains "type" && keys.contains "coordinates" then
            acc ++ [c]
          else acc
      | .error _ => acc
    else acc
  | _ => acc

/-- Lines 25-57: the content scan for one column `c`.  `w` models
shapely `wkt.loads` (success or raise).  The first sampled non-null
value alone is inspected; a raise from `wkt.loads` falls through to the
GeoJSON check, mirroring the try/except structure of the source. -/
def detectStep (w : String → Except String Unit)
    (j : String → Except String (List String)) (df : DataFrame)
    (acc : List String) (c : String) : List String :=
  if c ∈ acc then acc
  else
    if dtypeIsObject (df.colVals c) &&
        !(((df.colVals c).filter Value.notna).take 5).isEmpty then
      match (((df.colVals c).filter Value.notna).take 5).head? with
      | some (Value.str s) =>
          if wktStarts.any (fun p => strStartsWith s p) then
            match w s with
            | .ok _ => acc ++ [c]
            | .error _ => geoJsonCheck j acc c (Value.str s)
          else geoJsonCheck j acc c (Value.str s)
      | some v => geoJsonCheck j acc c v
      | none => acc
    else acc

/-- Lines 20-22: the unconditional name matches. -/
def nameMatchCandidates (df : DataFrame) : List String :=
  df.cols.filter (fun c => geomColNames.contains (strLower c))

/-- Lines 15-59: `detect_geometry_columns`.  The name pass runs first,
then the content pass over all columns, skipping columns already in the
candidate list. -/
def detect_geometry_columns (w : String → Except String Unit)
    (j : String → Except String (List String)) (df : DataFrame) :
    List String :=
  df.cols.foldl (detectStep w j df) (nameMatchCandidates df)

/-- Exception-propagating counterpart of `detectStep`: every call into
the libraries (`w`, `j`) appears with its raise case handled exactly
where the source has a try/except, so an uncaught raise would surface
as `.error`. -/
def detectStepExc (w : String → Except String Unit)
    (j : String → Except String (List String)) (df : DataFrame)
    (acc : List String) (c : String) : Except String (List String) :=
  if c ∈ acc then .ok acc
  else
    if dtypeIsObject (df.colVals c) &&
        !(((df.colVals c).filter Value.notna).take 5).isEmpty then
      match (((df.colVals c).filter Value.notna).take 5).head? with
      | some (Value.str s) =>
          if wktStarts.any (fun p => strStartsWith s p) then
            match w s with
            | .ok _ => .ok (acc ++ [c])
            | .error _ => .ok (geoJsonCheck j acc c (Value.str s))
          else .ok (geoJsonCheck j acc c (Value.str s))
      | some v => .ok (geoJsonCheck j acc c v)
      | none => .ok acc
    else .ok acc

/-- Error-propagating fold over the columns. -/
def foldlE (f : List String → String → Except String (List String)) :
    List String → List String → Except String (List String)
  | acc, [] => .ok acc
  | acc, c :: cs =>
    match f acc c with
    | .error e => .error e
    | .ok acc2 => foldlE f acc2 cs

/-- `detect_geometry_columns` run under exception-propagating
semantics. -/
def detect_geometry_columns_exc (w : String → Except String Unit)
    (j : String → Except String (List String)) (df : DataFrame) :
    Except String (List String) :=
  foldlE (detectStepExc w j df) (nameMatchCandidates df) df.cols

/-- A shapely geometry, abstracted: a point with its two coordinates, or
a geometry obtained by parsing a WKT or GeoJSON string. -/
inductive Geom where
  | point : Rat → Rat → Geom
  | fromWkt : String → Geom
  | fromGeoJson : String → Geom
deriving DecidableEq

/-- A GeoDataFrame: data columns and rows, a geometry per row, and one
CRS shared by all rows. -/
structure GeoDataFrame where
  cols : List String
  rows : List (List Value)
  geoms : List Geom
  crs : String
deriving DecidableEq

/-- Observable events of one `convert_csv_to_geodataframe` run, in
order: `st.warning` calls, `st.error` calls, the materialisation of the
geometry list, and the resolution of the CRS inside the GeoDataFrame
constructor. -/
inductive Event where
  | warning : String → Event
  | stError : String → Event
  | geometryBuilt : Nat → Event
  | crsResolved : String → Event
deriving DecidableEq

/-- The python list comprehension / `Series.apply`: build every
element, stopping at the first raise. -/
def mapE {α β : Type} (f : α → Except String β) :
    List α → Except String (List β)
  | [] => .ok []
  | a :: as =>
    match f a with
    | .error e => .error e
    | .ok b =>
      match mapE f as with
      | .error e => .error e
      | .ok bs => .ok (b :: bs)

/-- `gpd.GeoDataFrame(df, geometry=geometry, crs=crs)`: pyproj resolves
the CRS here (oracle `crsValid`) and raises a CRSError when the string
does not resolve. -/
def mkGeoDataFrame (crsValid : String → Bool) (cols : List String)
    (rows : List (List Value)) (geoms : List Geom) (crs : String) :
    Except String GeoDataFrame :=
  if crsValid crs then .ok ⟨cols, rows, geoms, crs⟩
  else .error ("CRSError: Invalid projection: " ++ crs)

/-- `shapely.geometry.Point(xy)`: requires numeric coordinates, raises
otherwise (there is no numeric coercion in the source). -/
def mkPoint : Value → Value → Except String Geom
  | .num x, .num y => .ok (.point x y)
  | _, _ => .error "TypeError: Point coordinates must be numeric"

/-- Line 77: the row filter of points mode, `notna` on both coordinate
columns. -/
def pointsKeep (iLon iLat : Nat) (r : List Value) : Bool :=
  (getCell r iLon).notna && (getCell r iLat).notna

/-- Lines 90 and 108: the row filter of wkt / geojson mode. -/
def geomKeep (iG : Nat) (r : List Value) : Bool :=
  (getCell r iG).notna

/-- `wkt.loads` applied to a cell (line 97): only strings can parse;
the parse oracle `w` succeeds or raises with a message that depends on
the string alone. -/
def wktApply (w : String → Except String Unit) : Value → Except String Geom
  | .str s =>
    match w s with
    | .ok _ => .ok (.fromWkt s)
    | .error e => .error e
  | _ => .error "TypeError: Only str is accepted"

/-- `shape(json.loads(x))` applied to a cell (line 115). -/
def geoJsonApply (g : String → Except String Unit) :
    Value → Except String Geom
  | .str s =>
    match g s with
    | .ok _ => .ok (.fromGeoJson s)
    | .error e => .error e
  | _ => .error "TypeError: the JSON object must be str"

/-- Lines 61-122: `convert_csv_to_geodataframe`.  Returns the event
trace together with the normal result or the propagated exception.
`crsValid` models pyproj CRS resolution, `w` shapely `wkt.loads`, `g`
the composition `shape(json.loads(.))`.  The keyword arguments
`lon_col`, `lat_col`, `geom_col`, `crs` are `Option`s because
`kwargs.get` yields None when absent. -/
def convert_csv_to_geodataframe (crsValid : String → Bool)
    (w : String → Except String Unit) (g : String → Except String Unit)
    (df : DataFrame) (mode : String)
    (lon_col lat_col geom_col crsArg : Option String) :
    List Event × Except String GeoDataFrame :=
  let crs := crsArg.getD "EPSG:4326"
  if mode = "points" then
    match lon_col.bind df.colIdx?, lat_col.bind df.colIdx? with
    | some iLon, some iLat =>
      let bad := (df.rows.filter (fun r => !pointsKeep iLon iLat r)).length
      let evs := if bad > 0 then
          [Event.warning ("Found " ++ toString bad ++
            " rows with missing coordinates. These will be excluded.")]
        else []
      let rows := if bad > 0 then df.rows.filter (pointsKeep iLon iLat)
        else df.rows
      match mapE (fun r => mkPoint (getCell r iLon) (getCell r iLat)) rows with
      | .error e => (evs, .error e)
      | .ok geoms =>
        match mkGeoDataFrame crsValid df.cols rows geoms crs with
        | .error e => (evs ++ [Event.geometryBuilt geoms.length], .error e)
        | .ok gdf =>
            (evs ++ [Event.geometryBuilt geoms.length, Event.crsResolved crs],
             .ok gdf)
    | _, _ => ([], .error "KeyError")
  else if mode = "wkt" then
    match geom_col.bind df.colIdx? with
    | some iG =>
      let bad := (df.rows.filter (fun r => !geomKeep iG r)).length
      let evs := if bad > 0 then
          [Event.warning ("Found " ++ toString bad ++
            " rows with missing geometries. These will be excluded.")]
        else []
      let rows := if bad > 0 then df.rows.filter (geomKeep iG) else df.rows
      match mapE (fun r => wktApply w (getCell r iG)) rows with
      | .error e =>
          (evs ++ [Event.stError ("Error parsing WKT geometries: " ++ e)],
           .error e)
      | .ok geoms =>
        match mkGeoDataFrame crsValid (df.cols.eraseIdx iG)
            (rows.map (fun r => r.eraseIdx iG)) geoms crs with
        | .error e =>
            (evs ++ [Event.geometryBuilt geoms.length,
              Event.stError ("Error parsing WKT geometries: " ++ e)],
             .error e)
        | .ok gdf =>
            (evs ++ [Event.geometryBuilt geoms.length, Event.crsResolved crs],
             .ok gdf)
    | none => ([], .error "KeyError")
  else if mode = "geojson" then
    match geom_col.bind df.colIdx? with
    | some iG =>
      let bad := (df.rows.filter (fun r => !geomKeep iG r)).length
      let evs := if bad > 0 then
          [Event.warning ("Found " ++ toString bad ++
            " rows with missing geometries. These will be excluded.")]
        else []
      let rows := if bad > 0 then df.rows.filter (geomKeep iG) else df.rows
      match mapE (fun r => geoJsonApply g (getCell r iG)) rows with
      | .error e =>
          (evs ++ [Event.stError ("Error parsing GeoJSON geometries: " ++ e)],
           .error e)
      | .ok geoms =>
        match mkGeoDataFrame crsValid (df.cols.eraseIdx iG)
            (rows.map (fun r => r.eraseIdx iG)) geoms crs with
        | .error e =>
            (evs ++ [Event.geometryBuilt geoms.length,
              Event.stError ("Error parsing GeoJSON geometries: " ++ e)],
             .error e)
        | .ok gdf =>
            (evs ++ [Event.geometryBuilt geoms.length, Event.crsResolved crs],
             .ok gdf)
    | none => ([], .error "KeyError")
  else ([], .error "UnboundLocalError: local variable gdf referenced before assignment")

/-- Lines 353-360: the list every output format comes from. -/
def all_formats : List String := ["geojson", "parquet", "shp", "gpkg"]

/-- Lines 357-360: the selectable output formats for a given input file
extension; the input format itself is removed when it is one of the
four. -/
def format_options (file_extension : String) : List String :=
  if file_extension ∈ all_formats then
    all_formats.filter (fun fmt => fmt ≠ file_extension)
  else all_formats

/-- Whether an `Except` result is a normal (non-raising) result. -/
def isOkE {α : Type} : Except String α → Bool
  | .ok _ => true
  | .error _ => false

/-- The six geometry keywords of the pattern quoted by the spec. -/
def specWktNames : List String :=
  ["POINT", "LINESTRING", "POLYGON", "MULTIPOINT", "MULTILINESTRING",
   "MULTIPOLYGON"]

/-- Modelled from the spec wording, for comparison with the source: a
value matches the anchored, case-insensitive pattern
^(POINT|LINESTRING|POLYGON|MULTIPOINT|MULTILINESTRING|MULTIPOLYGON)\s*(
when, after upper-casing, it starts with one of the six keywords,
followed by optional whitespace and an opening parenthesis. -/
def specWktPattern (s : String) : Bool :=
  specWktNames.any fun p =>
    p.data.isPrefixOf (s.data.map Char.toUpper) &&
      (((s.data.map Char.toUpper).drop p.data.length).dropWhile
        (fun ch => ch.isWhitespace)).take 1 == ['(']

/-! Helper lemmas -/

theorem mapE_ok_of_all {α β : Type} (f : α → Except String β) (gfun : α → β) :
    ∀ l : List α, (∀ a ∈ l, f a = .ok (gfun a)) → mapE f l = .ok (l.map gfun) := by
  intro l
  induction l with
  | nil => intro _; rfl
  | cons a as ih =>
    intro h
    have ha := h a (List.mem_cons_self a as)
    have has := ih (fun x hx => h x (List.mem_cons_of_mem a hx))
    simp [mapE, ha, has]

theorem mapE_not_ok_of_mem {α β : Type} (f : α → Except String β)
    {l : List α} {a : α} (ha : a ∈ l) (hf : isOkE (f a) = false) :
    isOkE (mapE f l) = false := by
  induction l with
  | nil => simp at ha
  | cons b bs ih =>
    rcases List.mem_cons.mp ha with rfl | hmem
    · cases hb : f a with
      | ok x => rw [hb] at hf; simp [isOkE] at hf
      | error e => simp [mapE, hb, isOkE]
    · cases hb : f b with
      | error e => simp [mapE, hb, isOkE]
      | ok x =>
        cases hm : mapE f bs with
        | error e => simp [mapE, hb, hm, isOkE]
        | ok ys =>
          have hbs := ih hmem
          rw [hm] at hbs
          simp [isOkE] at hbs

/-- The conditional row filter of lines 78-80 / 91-93 (filter only when
some row is invalid) always equals the unconditional filter. -/
theorem rows_branch_eq (p : List Value → Bool) (rs : List (List Value)) :
    (if (rs.filter (fun r => !p r)).length > 0 then rs.filter p else rs) =
      rs.filter p := by
  split
  · rfl
  · rename_i h
    have h0 : rs.filter (fun r => !p r) = [] :=
      List.length_eq_zero.mp (Nat.eq_zero_of_not_pos h)
    have hall : ∀ r ∈ rs, p r = true := by
      intro r hr
      by_contra hpr
      have hmem : r ∈ rs.filter (fun r => !p r) :=
        List.mem_filter.mpr ⟨hr, by simp [Bool.not_eq_true] at hpr ⊢; exact hpr⟩
      rw [h0] at hmem
      simp at hmem
    exact (List.filter_eq_self.mpr hall).symm

/-! Concrete inputs used by counterexamples and witnesses -/

/-- A CRS oracle accepting every string. -/
def cvAll : String → Bool := fun _ => true

/-- A CRS oracle rejecting exactly the string not-a-crs. -/
def cvNot : String → Bool := fun s => s != "not-a-crs"

/-- A WKT parse oracle accepting every string. -/
def wAny : String → Except String Unit := fun _ => .ok ()

/-- A JSON oracle that always raises. -/
def jErr : String → Except String (List String) := fun _ => .error "JSONDecodeError"

/-- A WKT parse oracle accepting exactly POINT(1 2). -/
def wOrC1 : String → Except String Unit :=
  fun s => if s == "POINT(1 2)" then .ok () else .error "ParseException"

/-- A WKT parse oracle raising exactly on the string BAD. -/
def wktC4 : String → Except String Unit :=
  fun s => if s == "BAD" then .error "ParseException: Unknown type" else .ok ()

/-- One column whose first sampled value does not look like WKT while the
second sampled value does. -/
def dfC1 : DataFrame := ⟨["data"], [[.str "foo"], [.str "POINT(1 2)"]]⟩

/-- One column whose first sampled value is a parsable WKT point. -/
def dfC1w : DataFrame := ⟨["data2"], [[.str "POINT(1 2)"]]⟩

/-- One row whose longitude is a non-numeric, non-null string. -/
def dfC2x : DataFrame := ⟨["lon", "lat"], [[.str "abc", .num 20]]⟩

/-- Two coordinate rows, the second with a missing longitude. -/
def dfC2w : DataFrame :=
  ⟨["lon", "lat"], [[.num 10, .num 20], [.null, .num 20]]⟩

/-- A single fully valid coordinate row. -/
def dfC3 : DataFrame := ⟨["lon", "lat"], [[.num 10, .num 20]]⟩

/-- A geometry column whose only value fails to parse (offending row 0). -/
def dfC4a : DataFrame := ⟨["g"], [[.str "BAD"]]⟩

/-- A geometry column whose sixth value fails to parse (offending row 5). -/
def dfC4b : DataFrame :=
  ⟨["g"], [[.str "POINT(0 0)"], [.str "POINT(1 1)"], [.str "POINT(2 2)"],
           [.str "POINT(3 3)"], [.str "POINT(4 4)"], [.str "BAD"]]⟩

/-- An upper-case geometry-named column with numeric content. -/
def dfC5 : DataFrame := ⟨["GEOMETRY", "x"], [[.num 1, .num 2]]⟩

/-- An id column plus a WKT column, with one null geometry row. -/
def dfC6 : DataFrame :=
  ⟨["id", "g"], [[.num 1, .str "POINT(0 0)"], [.num 2, .null]]⟩

/-! Claim theorems -/

/-- C8 counterexample: the set of selectable output formats is not
independent of the input format: an input with extension geojson loses
the geojson option, while a csv input keeps all four formats. -/
theorem C8_format_menu_counterexample :
    format_options "geojson" ≠ format_options "csv" := by decide

/-- C8 (amended): the selectable output formats are exactly the four
formats geojson, parquet, shp, gpkg, except that when the input file
extension is itself one of those four, that format is removed from the
menu; any other input extension (csv, zip, ...) sees all four. -/
theorem C8_format_menu_amended (ext f : String) :
    f ∈ format_options ext ↔
      f ∈ all_formats ∧ ¬(ext ∈ all_formats ∧ f = ext) := by
  unfold format_options
  by_cases h : ext ∈ all_formats
  · rw [if_pos h]
    simp [List.mem_filter, h]
  · rw [if_neg h]
    simp [h]

/-- C10: for every mode string outside points, wkt, geojson,
`convert_csv_to_geodataframe` falls through every branch and raises
(the local variable gdf is never bound), with an empty event trace and
no table returned. -/
theorem C10_unknown_mode_raises (crsValid : String → Bool)
    (w g : String → Except String Unit) (df : DataFrame)
    (lon_col lat_col geom_col crsArg : Option String) (mode : String)
    (h1 : mode ≠ "points") (h2 : mode ≠ "wkt") (h3 : mode ≠ "geojson") :
    convert_csv_to_geodataframe crsValid w g df mode lon_col lat_col geom_col crsArg =
      ([], .error "UnboundLocalError: local variable gdf referenced before assignment") := by
  simp only [convert_csv_to_geodataframe, if_neg h1, if_neg h2, if_neg h3]

/-- C10 witness: the unknown mode bogus produces the unbound-variable
raise on a concrete input. -/
theorem C10_unknown_mode_raises_witness :
    convert_csv_to_geodataframe cvAll wAny wAny dfC3 "bogus" none none none none =
      ([], .error "UnboundLocalError: local variable gdf referenced before assignment") :=
  C10_unknown_mode_raises cvAll wAny wAny dfC3 none none none none "bogus"
    (by decide) (by decide) (by decide)

/-! Lemmas about the candidate scan -/

theorem geoJsonCheck_subset (j : String → Except String (List String))
    (acc : List String) (c : String) (v : Value) :
    acc ⊆ geoJsonCheck j acc c v := by
  cases v with
  | str s =>
    unfold geoJsonCheck
    repeat' split
    all_goals first
      | exact List.subset_append_left acc [c]
      | exact List.Subset.refl acc
  | num q => exact List.Subset.refl acc
  | null => exact List.Subset.refl acc

theorem detectStep_subset (w : String → Except String Unit)
    (j : String → Except String (List String)) (df : DataFrame)
    (acc : List String) (c : String) : acc ⊆ detectStep w j df acc c := by
  unfold detectStep
  split
  · exact List.Subset.refl acc
  split
  · split
    · split
      · cases w _ with
        | ok u => exact List.subset_append_left acc [c]
        | error e => exact geoJsonCheck_subset j acc c _
      · exact geoJsonCheck_subset j acc c _
    · exact geoJsonCheck_subset j acc c _
    · exact List.Subset.refl acc
  · exact List.Subset.refl acc

theorem detect_foldl_subset (w : String → Except String Unit)
    (j : String → Except String (List String)) (df : DataFrame) :
    ∀ (l acc : List String), acc ⊆ l.foldl (detectStep w j df) acc := by
  intro l
  induction l with
  | nil => intro acc; simp
  | cons c cs ih =>
    intro acc
    rw [List.foldl_cons]
    exact (detectStep_subset w j df acc c).trans (ih _)

/-- When the first sampled non-null value of an object-dtype column is a
string that starts with one of the five recognised WKT keywords and the
WKT parser accepts it, the content scan appends the column. -/
theorem detectStep_adds (w : String → Except String Unit)
    (j : String → Except String (List String)) (df : DataFrame)
    (acc : List String) (c s : String) (hacc : c ∉ acc)
    (hdt : dtypeIsObject (df.colVals c) = true)
    (hh : (((df.colVals c).filter Value.notna).take 5).head? =
      some (Value.str s))
    (hpre : wktStarts.any (fun p => strStartsWith s p) = true)
    (hw : w s = .ok ()) :
    detectStep w j df acc c = acc ++ [c] := by
  have hne : (((df.colVals c).filter Value.notna).take 5).isEmpty = false := by
    cases hs : ((df.colVals c).filter Value.notna).take 5 with
    | nil => rw [hs] at hh; simp at hh
    | cons a as => rfl
  unfold detectStep
  rw [if_neg hacc, if_pos (by rw [hdt, hne]; rfl)]
  rw [hh]
  simp only [hpre, if_true, hw]

theorem detect_foldl_mem (w : String → Except String Unit)
    (j : String → Except String (List String)) (df : DataFrame)
    (c s : String)
    (hdt : dtypeIsObject (df.colVals c) = true)
    (hh : (((df.colVals c).filter Value.notna).take 5).head? =
      some (Value.str s))
    (hpre : wktStarts.any (fun p => strStartsWith s p) = true)
    (hw : w s = .ok ()) :
    ∀ (l acc : List String), c ∈ l ∨ c ∈ acc →
      c ∈ l.foldl (detectStep w j df) acc := by
  intro l
  induction l with
  | nil =>
    intro acc h
    rcases h with h | h
    · simp at h
    · simpa using h
  | cons c0 cs ih =>
    intro acc h
    rw [List.foldl_cons]
    by_cases hacc : c ∈ acc
    · exact ih _ (Or.inr (detectStep_subset w j df acc c0 hacc))
    · rcases h with h | h
      · rcases List.mem_cons.mp h with rfl | hmem
        · refine ih _ (Or.inr ?_)
          rw [detectStep_adds w j df acc c s hacc hdt hh hpre hw]
          simp
        · exact ih _ (Or.inl hmem)
      · exact absurd h hacc

/-! Claims about the candidate scan -/

/-- C1 counterexample: in a column of sampled values [foo, POINT(1 2)],
the second sampled value matches the anchored case-insensitive pattern
of the claim, yet `detect_geometry_columns` returns no candidate at all,
because the source inspects only the first sampled value. -/
theorem C1_wkt_sniff_counterexample :
    specWktPattern "POINT(1 2)" = true ∧
    Value.str "POINT(1 2)" ∈ ((dfC1.colVals "data").filter Value.notna).take 5 ∧
    detect_geometry_columns wOrC1 jErr dfC1 = [] :=
  ⟨by decide, by decide, by decide⟩

/-- C1 (amended): a column is included as a WKT candidate when the FIRST
sampled non-null value (of an object-dtype column) is a string starting,
case-sensitively, with one of POINT, POLYGON, MULTIPOLYGON, LINESTRING,
MULTILINESTRING (MULTIPOINT is absent) and shapely parses it as WKT;
later sampled values are never inspected. -/
theorem C1_wkt_sniff_amended (w : String → Except String Unit)
    (j : String → Except String (List String)) (df : DataFrame)
    (c s : String) (hc : c ∈ df.cols)
    (hdt : dtypeIsObject (df.colVals c) = true)
    (hh : (((df.colVals c).filter Value.notna).take 5).head? =
      some (Value.str s))
    (hpre : wktStarts.any (fun p => strStartsWith s p) = true)
    (hw : w s = .ok ()) :
    c ∈ detect_geometry_columns w j df :=
  detect_foldl_mem w j df c s hdt hh hpre hw df.cols
    (nameMatchCandidates df) (Or.inl hc)

/-- C1 witness: a column whose first sampled value is POINT(1 2) is
detected. -/
theorem C1_wkt_sniff_amended_witness :
    "data2" ∈ detect_geometry_columns wOrC1 jErr dfC1w :=
  C1_wkt_sniff_amended wOrC1 jErr dfC1w "data2" "POINT(1 2)"
    (by decide) rfl rfl (by decide) rfl

/-- C5: a column whose name, lower-cased, is geometry is always included
in the candidates, whatever its contents and whatever the parsing
oracles do. -/
theorem C5_geometry_name_candidate (w : String → Except String Unit)
    (j : String → Except String (List String)) (df : DataFrame)
    (c : String) (hc : c ∈ df.cols) (hname : strLower c = "geometry") :
    c ∈ detect_geometry_columns w j df := by
  have hmem : c ∈ nameMatchCandidates df := by
    unfold nameMatchCandidates
    rw [List.mem_filter]
    refine ⟨hc, ?_⟩
    show geomColNames.contains (strLower c) = true
    rw [hname]
    decide
  exact detect_foldl_subset w j df df.cols (nameMatchCandidates df) hmem

/-- C5 witness: the upper-case column name GEOMETRY with numeric content
is detected. -/
theorem C5_geometry_name_candidate_witness :
    "GEOMETRY" ∈ detect_geometry_columns wAny jErr dfC5 :=
  C5_geometry_name_candidate wAny jErr dfC5 "GEOMETRY" (by decide) (by decide)

/-- Every exception site of `detectStep` is inside a try/except, so the
exception-propagating semantics returns normally with the same candidate
list. -/
theorem detectStepExc_eq (w : String → Except String Unit)
    (j : String → Except String (List String)) (df : DataFrame)
    (acc : List String) (c : String) :
    detectStepExc w j df acc c = .ok (detectStep w j df acc c) := by
  unfold detectStepExc detectStep
  split
  · rfl
  split
  · split
    · split
      · cases w _ with
        | ok u => rfl
        | error e => rfl
      · rfl
    · rfl
    · rfl
  · rfl

theorem foldlE_eq (w : String → Except String Unit)
    (j : String → Except String (List String)) (df : DataFrame) :
    ∀ (l acc : List String),
      foldlE (detectStepExc w j df) acc l =
        .ok (l.foldl (detectStep w j df) acc) := by
  intro l
  induction l with
  | nil => intro acc; rfl
  | cons c cs ih =>
    intro acc
    rw [List.foldl_cons]
    unfold foldlE
    rw [detectStepExc_eq]
    exact ih _

/-- C9: `detect_geometry_columns` never raises: run under
exception-propagating semantics it returns normally, producing exactly
the candidate list of the pure function (an empty list is a possible,
silent outcome).  It also never mutates its input: the embedding is
pure, matching the source, which only reads `df` through dropna/head
copies. -/
theorem C9_detect_never_raises (w : String → Except String Unit)
    (j : String → Except String (List String)) (df : DataFrame) :
    detect_geometry_columns_exc w j df =
      .ok (detect_geometry_columns w j df) :=
  foldlE_eq w j df df.cols (nameMatchCandidates df)

/-! Claims about the geometry builder -/

/-- C2 counterexample: a row whose longitude is the non-null, non-numeric
string abc is NOT excluded by points mode: the source checks only for
nulls and never coerces to numeric, so no warning is issued (empty event
trace) and the Point constructor raises, failing the whole operation
instead of excluding the row. -/
theorem C2_points_counterexample :
    convert_csv_to_geodataframe cvAll wAny wAny dfC2x "points"
      (some "lon") (some "lat") none none =
      ([], .error "TypeError: Point coordinates must be numeric") := rfl

/-- C3 counterexample: with the unresolvable CRS not-a-crs, the run does
fail with a CRS error, but only AFTER the geometry list has been built:
the event trace contains the geometry construction event. -/
theorem C3_crs_order_counterexample :
    convert_csv_to_geodataframe cvNot wAny wAny dfC3 "points"
      (some "lon") (some "lat") none (some "not-a-crs") =
      ([Event.geometryBuilt 1],
       .error "CRSError: Invalid projection: not-a-crs") := rfl

/-- C4 counterexample: two inputs whose offending WKT value sits at row 0
and at row 5 respectively produce the very same error, so the raised
ConversionError does not name the row of the offending value. -/
theorem C4_wkt_failure_counterexample :
    (convert_csv_to_geodataframe cvAll wktC4 wAny dfC4a "wkt" none none
      (some "g") none).2 = .error "ParseException: Unknown type" ∧
    (convert_csv_to_geodataframe cvAll wktC4 wAny dfC4b "wkt" none none
      (some "g") none).2 = .error "ParseException: Unknown type" :=
  ⟨rfl, rfl⟩

/-- C3 (amended): an unresolvable CRS string always makes the build fail
and no geometry-bearing table is returned; the CRS is resolved when the
GeoDataFrame is assembled, i.e. after geometry construction, not before
it. -/
theorem C3_invalid_crs_amended (crsValid : String → Bool)
    (w g : String → Except String Unit) (df : DataFrame) (mode : String)
    (lon_col lat_col geom_col crsArg : Option String)
    (hcrs : crsValid (crsArg.getD "EPSG:4326") = false) :
    isOkE (convert_csv_to_geodataframe crsValid w g df mode lon_col
      lat_col geom_col crsArg).2 = false := by
  simp only [convert_csv_to_geodataframe, mkGeoDataFrame, hcrs,
    Bool.false_eq_true, if_false]
  repeat' split
  all_goals rfl

/-- C3 witness: the concrete CRS string not-a-crs yields no table. -/
theorem C3_invalid_crs_amended_witness :
    isOkE (convert_csv_to_geodataframe cvNot wAny wAny dfC3 "points"
      (some "lon") (some "lat") none (some "not-a-crs")).2 = false :=
  C3_invalid_crs_amended cvNot wAny wAny dfC3 "points" (some "lon")
    (some "lat") none (some "not-a-crs") rfl

/-- C4 (amended): in wkt mode, after null-geometry rows are excluded, a
single remaining value on which the WKT parser raises fails the entire
operation: no geometry-bearing table is produced.  The raised error
carries the parser message about the offending value but does not name
its row (see the counterexample). -/
theorem C4_wkt_failure_amended (crsValid : String → Bool)
    (w g : String → Except String Unit) (df : DataFrame) (gc : String)
    (crsArg : Option String) (iG : Nat) (hG : df.colIdx? gc = some iG)
    (hbad : ∃ r ∈ df.rows, geomKeep iG r = true ∧
      isOkE (wktApply w (getCell r iG)) = false) :
    isOkE (convert_csv_to_geodataframe crsValid w g df "wkt" none none
      (some gc) crsArg).2 = false := by
  obtain ⟨r, hr, hkeep, hfail⟩ := hbad
  have hmem : r ∈ df.rows.filter (geomKeep iG) :=
    List.mem_filter.mpr ⟨hr, hkeep⟩
  have hfail2 : isOkE (mapE (fun r => wktApply w (getCell r iG))
      (df.rows.filter (geomKeep iG))) = false :=
    mapE_not_ok_of_mem _ hmem hfail
  simp only [convert_csv_to_geodataframe, Option.some_bind, hG,
    rows_branch_eq]
  cases hm : mapE (fun r => wktApply w (getCell r iG))
      (df.rows.filter (geomKeep iG)) with
  | error e => rfl
  | ok geoms =>
    rw [hm] at hfail2
    simp [isOkE] at hfail2

/-- C4 witness: the concrete one-row input with unparsable value BAD
fails the whole wkt-mode operation. -/
theorem C4_wkt_failure_amended_witness :
    isOkE (convert_csv_to_geodataframe cvAll wktC4 wAny dfC4a "wkt"
      none none (some "g") none).2 = false :=
  C4_wkt_failure_amended cvAll wktC4 wAny dfC4a "g" none 0 rfl (by decide)

/-- C2 (amended): in points mode, with a resolvable CRS and all retained
values numeric, the excluded rows are EXACTLY those with a null
longitude or latitude (there is no numeric coercion; a non-null
non-numeric value is not excluded but fails the run, see the
counterexample); the exclusion count is reported as a warning, not an
error, and every remaining row gets a Point whose coordinates are the
verbatim (longitude, latitude) pair of the row. -/
theorem C2_points_amended (crsValid : String → Bool)
    (w g : String → Except String Unit) (df : DataFrame)
    (lc tc : String) (crsArg : Option String) (iLon iLat : Nat)
    (hL : df.colIdx? lc = some iLon) (hT : df.colIdx? tc = some iLat)
    (hnum : ∀ r ∈ df.rows, pointsKeep iLon iLat r = true →
      (getCell r iLon).isNum = true ∧ (getCell r iLat).isNum = true)
    (hcrs : crsValid (crsArg.getD "EPSG:4326") = true) :
    convert_csv_to_geodataframe crsValid w g df "points" (some lc)
        (some tc) none crsArg =
      ((if (df.rows.filter (fun r => !pointsKeep iLon iLat r)).length > 0 then
          [Event.warning ("Found " ++
            toString (df.rows.filter (fun r => !pointsKeep iLon iLat r)).length ++
            " rows with missing coordinates. These will be excluded.")]
        else []) ++
        [Event.geometryBuilt (df.rows.filter (pointsKeep iLon iLat)).length,
         Event.crsResolved (crsArg.getD "EPSG:4326")],
       .ok ⟨df.cols, df.rows.filter (pointsKeep iLon iLat),
            (df.rows.filter (pointsKeep iLon iLat)).map
              (fun r => Geom.point (getCell r iLon).asRat (getCell r iLat).asRat),
            crsArg.getD "EPSG:4326"⟩) := by
  have hpoint : ∀ r ∈ df.rows.filter (pointsKeep iLon iLat),
      mkPoint (getCell r iLon) (getCell r iLat) =
        .ok (Geom.point (getCell r iLon).asRat (getCell r iLat).asRat) := by
    intro r hr
    obtain ⟨hrm, hkeep⟩ := List.mem_filter.mp hr
    obtain ⟨h1, h2⟩ := hnum r hrm hkeep
    cases hc1 : getCell r iLon with
    | num q1 =>
      cases hc2 : getCell r iLat with
      | num q2 => rfl
      | str s2 => rw [hc2] at h2; simp [Value.isNum] at h2
      | null => rw [hc2] at h2; simp [Value.isNum] at h2
    | str s1 => rw [hc1] at h1; simp [Value.isNum] at h1
    | null => rw [hc1] at h1; simp [Value.isNum] at h1
  simp only [convert_csv_to_geodataframe, Option.some_bind, hL, hT,
    rows_branch_eq]
  rw [mapE_ok_of_all (fun r => mkPoint (getCell r iLon) (getCell r iLat))
    (fun r => Geom.point (getCell r iLon).asRat (getCell r iLat).asRat)
    (df.rows.filter (pointsKeep iLon iLat)) hpoint]
  simp only [mkGeoDataFrame, hcrs, if_true, List.length_map]

/-- C2 witness: of two rows, the one with a null longitude is excluded
with a count-1 warning, and the valid row becomes the verbatim point
(10, 20). -/
theorem C2_points_amended_witness :
    convert_csv_to_geodataframe cvAll wAny wAny dfC2w "points"
        (some "lon") (some "lat") none none =
      ([Event.warning
          "Found 1 rows with missing coordinates. These will be excluded.",
        Event.geometryBuilt 1, Event.crsResolved "EPSG:4326"],
       .ok ⟨["lon", "lat"], [[Value.num 10, Value.num 20]],
            [Geom.point 10 20], "EPSG:4326"⟩) :=
  C2_points_amended cvAll wAny wAny dfC2w "lon" "lat" none 0 1 rfl rfl
    (by decide) rfl

/-- C6: on every successful build, wkt and geojson modes drop the source
geometry column (both from the column list and from every row), while
points mode keeps every original column, the coordinate columns
included; the remaining columns and cell values are unchanged on the
retained rows. -/
theorem C6_frame_columns (crsValid : String → Bool)
    (w g : String → Except String Unit) (df : DataFrame)
    (gc lc tc : String) (crsArg : Option String) (iG iLon iLat : Nat)
    (hG : df.colIdx? gc = some iG) (hL : df.colIdx? lc = some iLon)
    (hT : df.colIdx? tc = some iLat) :
    (∀ gdf : GeoDataFrame,
      (convert_csv_to_geodataframe crsValid w g df "wkt" none none
        (some gc) crsArg).2 = .ok gdf →
      gdf.cols = df.cols.eraseIdx iG ∧
      gdf.rows = (df.rows.filter (geomKeep iG)).map (fun r => r.eraseIdx iG)) ∧
    (∀ gdf : GeoDataFrame,
      (convert_csv_to_geodataframe crsValid w g df "geojson" none none
        (some gc) crsArg).2 = .ok gdf →
      gdf.cols = df.cols.eraseIdx iG ∧
      gdf.rows = (df.rows.filter (geomKeep iG)).map (fun r => r.eraseIdx iG)) ∧
    (∀ gdf : GeoDataFrame,
      (convert_csv_to_geodataframe crsValid w g df "points" (some lc)
        (some tc) none crsArg).2 = .ok gdf →
      gdf.cols = df.cols ∧
      gdf.rows = df.rows.filter (pointsKeep iLon iLat)) := by
  refine ⟨?_, ?_, ?_⟩
  · intro gdf h
    simp only [convert_csv_to_geodataframe, Option.some_bind, hG,
      rows_branch_eq] at h
    cases hm : mapE (fun r => wktApply w (getCell r iG))
        (df.rows.filter (geomKeep iG)) with
    | error e => rw [hm] at h; simp at h
    | ok geoms =>
      rw [hm] at h
      simp only [mkGeoDataFrame] at h
      split at h
      · rename_i hmode
        exact absurd hmode (by decide)
      · by_cases hcv : crsValid (crsArg.getD "EPSG:4326") = true
        · rw [if_pos hcv] at h
          obtain rfl := Except.ok.inj h
          exact ⟨rfl, rfl⟩
        · rw [if_neg hcv] at h
          simp at h
  · intro gdf h
    simp only [convert_csv_to_geodataframe, Option.some_bind, hG,
      rows_branch_eq] at h
    cases hm : mapE (fun r => geoJsonApply g (getCell r iG))
        (df.rows.filter (geomKeep iG)) with
    | error e => rw [hm] at h; simp at h
    | ok geoms =>
      rw [hm] at h
      simp only [mkGeoDataFrame] at h
      split at h
      · rename_i hmode
        exact absurd hmode (by decide)
      · by_cases hcv : crsValid (crsArg.getD "EPSG:4326") = true
        · rw [if_pos hcv] at h
          obtain rfl := Except.ok.inj h
          exact ⟨rfl, rfl⟩
        · rw [if_neg hcv] at h
          simp at h
  · intro gdf h
    simp only [convert_csv_to_geodataframe, Option.some_bind, hL, hT,
      rows_branch_eq] at h
    cases hm : mapE (fun r => mkPoint (getCell r iLon) (getCell r iLat))
        (df.rows.filter (pointsKeep iLon iLat)) with
    | error e => rw [hm] at h; simp at h
    | ok geoms =>
      rw [hm] at h
      simp only [mkGeoDataFrame] at h
      by_cases hcv : crsValid (crsArg.getD "EPSG:4326") = true
      · rw [if_pos hcv] at h
        obtain rfl := Except.ok.inj h
        exact ⟨rfl, rfl⟩
      · rw [if_neg hcv] at h
        simp at h

/-- C6 witness: the concrete wkt-mode run on an id column and a geometry
column named g drops the g column from columns and rows. -/
theorem C6_frame_columns_witness :
    (⟨["id"], [[Value.num 1]], [Geom.fromWkt "POINT(0 0)"],
      "EPSG:4326"⟩ : GeoDataFrame).cols = dfC6.cols.eraseIdx 1 ∧
    (⟨["id"], [[Value.num 1]], [Geom.fromWkt "POINT(0 0)"],
      "EPSG:4326"⟩ : GeoDataFrame).rows =
      (dfC6.rows.filter (geomKeep 1)).map (fun r => r.eraseIdx 1) :=
  (C6_frame_columns cvAll wAny wAny dfC6 "g" "id" "id" none 1 0 0
    rfl rfl rfl).1
    ⟨["id"], [[Value.num 1]], [Geom.fromWkt "POINT(0 0)"], "EPSG:4326"⟩ rfl

end GeoConvert


